import Mathlib

/-!
Verification of the Rocketlets TypeScript definition package: the builder
accessors (`IBuilder` / `INewBuilder` / `IModifyBuilder`), the message and
room builders (`IMessageBuilder` / `IRoomBuilder`), the read accessor
(`IMessageRead`) and the pre-message-sent enrichment hook
(`IPreMessageSentEnrich`).

The repository is declaration-only: every construct is a method signature
with a documentation comment describing intended behavior, and the host
application supplies the implementations.  The embedding therefore has two
layers:

* transcriptions of the declared interface shapes (the entity records and
  the per-interface operation-name lists), taken directly from the source
  files; and
* executable models of the host-side behavior those declarations document,
  each marked `Modelled from the spec:` in its doc comment, since the
  implementing code is not part of this repository.

Builders are modelled with explicit object identity: a world holds a heap
of builder working copies (indexed by `Nat` references) and a heap of the
snapshot objects handed out by `getMessage` / `getRoom`, so that "returns
the same builder instance" and "detached snapshot" are real statements
about references, not about values.
-/

/-- A user, referenced (never owned) by messages and rooms.  Only the
identity matters for the declared contracts. -/
structure IUser where
  id : String
deriving DecidableEq

/-- The enumerated room kind (`RoomType` in `src/rooms`); the concrete
enumerators are not part of the given sources, so a representative
enumeration is used. -/
inductive RoomType
  | channel
  | privateGroup
  | directMessage
  | livechat
deriving DecidableEq

/-- A message attachment: an opaque payload owned by a message and
referenced by position in the attachment sequence. -/
structure IMessageAttachment where
  payload : String
deriving DecidableEq

/-- A room, with the fields the builder contract manipulates: identity,
name, type, creator, default-membership flag, member usernames and the
updater reference (set only when modifying).  Fields a builder has not set
are absent. -/
structure IRoom where
  id : Option String := none
  name : Option String := none
  type : Option RoomType := none
  creator : Option IUser := none
  isDefault : Option Bool := none
  usernames : List String := []
  updater : Option IUser := none
deriving DecidableEq

/-- A message, with the fields the builder contract manipulates: identity,
room, sender, text, avatar (emoji code or URL), display alias, the ordered
attachment sequence and the updater reference (set only when modifying). -/
structure IMessage where
  id : Option String := none
  room : Option IRoom := none
  sender : Option IUser := none
  text : Option String := none
  emojiAvatar : Option String := none
  avatarUrl : Option String := none
  usernameAlias : Option String := none
  attachments : List IMessageAttachment := []
  updater : Option IUser := none
deriving DecidableEq

/-- The host's store of persisted messages, keyed by message id.
Modelled from the spec: persistence lives in the host application; the
read accessor and the modify accessor are lookups into this store. -/
def MessageStore : Type := List (String × IMessage)

/-- The host's store of persisted rooms, keyed by room id.
Modelled from the spec: persistence lives in the host application. -/
def RoomStore : Type := List (String × IRoom)

/-- Lookup of a stored entity by its string id. -/
def storeLookup {α : Type} (store : List (String × α)) (key : String) : Option α :=
  match store with
  | [] => none
  | (k, v) :: rest => if k = key then some v else storeLookup rest key

/-- Modelled from the spec: `IMessageRead.getById` (src/src/accessors/
IMessageRead.ts) resolves a message id to the stored message, or to absent
when the id does not resolve; it is a pure lookup, so the store is
returned unchanged (no side effects), and "not found" is never an error. -/
def IMessageRead.getById (store : MessageStore) (msgId : String) :
    Option IMessage × MessageStore :=
  (storeLookup store msgId, store)

/-- Modelled from the spec: `IMessageRead.getSenderUser` resolves a message
id to that message's sender, absent when the message does not exist (and
when the message has no sender); a pure lookup with no side effects. -/
def IMessageRead.getSenderUser (store : MessageStore) (messageId : String) :
    Option IUser × MessageStore :=
  ((storeLookup store messageId).bind (fun m => m.sender), store)

/-- Modelled from the spec: `IMessageRead.getRoom` resolves a message id to
that message's room, absent when the message does not exist (and when the
message has no room); a pure lookup with no side effects. -/
def IMessageRead.getRoom (store : MessageStore) (messageId : String) :
    Option IRoom × MessageStore :=
  ((storeLookup store messageId).bind (fun m => m.room), store)

/-- A sample store holding one message, used to instantiate the
hypothesis-bearing theorems at concrete inputs. -/
def sampleStore : MessageStore :=
  [("msg-1",
    { id := some "msg-1"
      sender := some { id := "alice" }
      room := some { id := some "general", name := some "general" } })]

/-- C1: for every identifier that does not resolve, `getById`,
`getSenderUser` and `getRoom` all resolve to an absent value (in
particular `getSenderUser` and `getRoom` are absent when the message
itself does not exist), and none of the three has side effects: the store
component of each result is the input store, for every identifier. -/
theorem c1_read_absent_not_error (store : MessageStore) (msgId : String) :
    ((IMessageRead.getById store msgId).2 = store
      ∧ (IMessageRead.getSenderUser store msgId).2 = store
      ∧ (IMessageRead.getRoom store msgId).2 = store)
    ∧ (storeLookup store msgId = none →
        (IMessageRead.getById store msgId).1 = none
          ∧ (IMessageRead.getSenderUser store msgId).1 = none
          ∧ (IMessageRead.getRoom store msgId).1 = none) := by
  refine ⟨⟨rfl, rfl, rfl⟩, fun h => ?_⟩
  refine ⟨h, ?_, ?_⟩ <;>
    simp [IMessageRead.getSenderUser, IMessageRead.getRoom, h]

/-- Witness for C1 at the concrete store `sampleStore` and the unresolved
identifier `"msg-404"`. -/
theorem c1_read_absent_not_error_witness :
    (IMessageRead.getById sampleStore "msg-404").1 = none
      ∧ (IMessageRead.getSenderUser sampleStore "msg-404").1 = none
      ∧ (IMessageRead.getRoom sampleStore "msg-404").1 = none :=
  (c1_read_absent_not_error sampleStore "msg-404").2 (by decide)

/-- The host-raised error kinds implied by the contract's documentation
comments: a modify accessor given an unresolved id, an attachment
positional operation outside the sequence, an invalid room name, and use
of a builder after its terminal commit. -/
inductive HostError
  | NotFound
  | IndexOutOfRange
  | InvalidName
  | UseAfterFinish
deriving DecidableEq

/-- Pointwise update of a `Nat`-indexed heap. -/
def hupdate {α : Type} (h : Nat → α) (r : Nat) (v : α) : Nat → α :=
  fun n => if n = r then v else h n

/-- Modelled from the spec: the host-side world of live message builders.
`builders` maps a builder reference to its exclusively owned working copy;
`msgObjs` holds the detached snapshot objects handed out by `getMessage`,
at references below `nextObj`. -/
structure MsgWorld where
  builders : Nat → IMessage
  msgObjs : Nat → IMessage
  nextObj : Nat

/-- Replaces the working copy of the builder `b`. -/
def MsgWorld.setB (w : MsgWorld) (b : Nat) (m : IMessage) : MsgWorld :=
  { w with builders := hupdate w.builders b m }

/-- Modelled from the spec: `IMessageBuilder.setRoom` sets the room of the
working copy and returns the receiver reference. -/
def IMessageBuilder.setRoom (w : MsgWorld) (b : Nat) (room : IRoom) :
    MsgWorld × Nat :=
  (w.setB b { w.builders b with room := some room }, b)

/-- Modelled from the spec: `IMessageBuilder.setSender` sets the sender of
the working copy and returns the receiver reference. -/
def IMessageBuilder.setSender (w : MsgWorld) (b : Nat) (sender : IUser) :
    MsgWorld × Nat :=
  (w.setB b { w.builders b with sender := some sender }, b)

/-- Modelled from the spec: `IMessageBuilder.setText` sets the text of the
working copy and returns the receiver reference. -/
def IMessageBuilder.setText (w : MsgWorld) (b : Nat) (text : String) :
    MsgWorld × Nat :=
  (w.setB b { w.builders b with text := some text }, b)

/-- Modelled from the spec: `IMessageBuilder.setEmojiAvatar` sets the
avatar emoji of the working copy and returns the receiver reference. -/
def IMessageBuilder.setEmojiAvatar (w : MsgWorld) (b : Nat) (emoji : String) :
    MsgWorld × Nat :=
  (w.setB b { w.builders b with emojiAvatar := some emoji }, b)

/-- Modelled from the spec: `IMessageBuilder.setAvatarUrl` sets the avatar
url of the working copy and returns the receiver reference. -/
def IMessageBuilder.setAvatarUrl (w : MsgWorld) (b : Nat) (avatarUrl : String) :
    MsgWorld × Nat :=
  (w.setB b { w.builders b with avatarUrl := some avatarUrl }, b)

/-- Modelled from the spec: `IMessageBuilder.setUsernameAlias` sets the
sender display alias of the working copy and returns the receiver
reference. -/
def IMessageBuilder.setUsernameAlias (w : MsgWorld) (b : Nat) (aliasName : String) :
    MsgWorld × Nat :=
  (w.setB b { w.builders b with usernameAlias := some aliasName }, b)

/-- Modelled from the spec: `IMessageBuilder.addAttachment` appends one
attachment to the end of the working copy's attachment sequence, without
overwriting any existing entry, and returns the receiver reference. -/
def IMessageBuilder.addAttachment (w : MsgWorld) (b : Nat)
    (attachment : IMessageAttachment) : MsgWorld × Nat :=
  (w.setB b
    { w.builders b with
      attachments := (w.builders b).attachments ++ [attachment] }, b)

/-- Modelled from the spec: `IMessageBuilder.setAttachments` replaces the
entire attachment sequence of the working copy, discarding all prior
entries, and returns the receiver reference. -/
def IMessageBuilder.setAttachments (w : MsgWorld) (b : Nat)
    (attachments : List IMessageAttachment) : MsgWorld × Nat :=
  (w.setB b { w.builders b with attachments := attachments }, b)

/-- Modelled from the spec: `IMessageBuilder.replaceAttachment` replaces
the attachment at the given position when the position is an existing
index, returning the receiver reference; for a position outside the
current bounds it raises IndexOutOfRange and leaves the world unchanged.
The position is an `Int` since the source declares a TypeScript number. -/
def IMessageBuilder.replaceAttachment (w : MsgWorld) (b : Nat)
    (position : Int) (attachment : IMessageAttachment) :
    MsgWorld × Except HostError Nat :=
  if 0 ≤ position ∧ position < ((w.builders b).attachments.length : Int) then
    (w.setB b
      { w.builders b with
        attachments :=
          (w.builders b).attachments.set position.toNat attachment },
      .ok b)
  else (w, .error .IndexOutOfRange)

/-- Modelled from the spec: `IMessageBuilder.removeAttachment` removes the
attachment at the given position when the position is an existing index,
returning the receiver reference; for a position outside the current
bounds it raises IndexOutOfRange and leaves the world unchanged. -/
def IMessageBuilder.removeAttachment (w : MsgWorld) (b : Nat)
    (position : Int) : MsgWorld × Except HostError Nat :=
  if 0 ≤ position ∧ position < ((w.builders b).attachments.length : Int) then
    (w.setB b
      { w.builders b with
        attachments := (w.builders b).attachments.eraseIdx position.toNat },
      .ok b)
  else (w, .error .IndexOutOfRange)

/-- Modelled from the spec: `IMessageBuilder.setUpdater` sets the updating
user of the working copy and returns the receiver reference. -/
def IMessageBuilder.setUpdater (w : MsgWorld) (b : Nat) (user : IUser) :
    MsgWorld × Nat :=
  (w.setB b { w.builders b with updater := some user }, b)

/-- Modelled from the spec: `IMessageBuilder.getMessage` returns a
detached snapshot of the working copy built so far: a fresh message
object, allocated at a reference the builder never touches. -/
def IMessageBuilder.getMessage (w : MsgWorld) (b : Nat) : MsgWorld × Nat :=
  ({ w with
      msgObjs := hupdate w.msgObjs w.nextObj (w.builders b)
      nextObj := w.nextObj + 1 }, w.nextObj)

/-- Modelled from the spec: an external mutation of a message object a
caller received, performed outside the builder. -/
def mutateMessageObj (w : MsgWorld) (r : Nat) (m : IMessage) : MsgWorld :=
  { w with msgObjs := hupdate w.msgObjs r m }

/-- Modelled from the spec: the host-side world of live room builders,
mirroring `MsgWorld`. -/
structure RoomWorld where
  builders : Nat → IRoom
  roomObjs : Nat → IRoom
  nextObj : Nat

/-- Replaces the working copy of the room builder `b`. -/
def RoomWorld.setB (w : RoomWorld) (b : Nat) (r : IRoom) : RoomWorld :=
  { w with builders := hupdate w.builders b r }

/-- Modelled from the spec: the host naming rules a room name must
satisfy.  The spec gives only the empty string as a concrete violating
example, so the model takes a name as valid exactly when it is
nonempty. -/
def isValidRoomName (name : String) : Bool :=
  !name.isEmpty

/-- Modelled from the spec: `IRoomBuilder.setCreator` sets the creator of
the working copy and returns the receiver reference. -/
def IRoomBuilder.setCreator (w : RoomWorld) (b : Nat) (creator : IUser) :
    RoomWorld × Nat :=
  (w.setB b { w.builders b with creator := some creator }, b)

/-- Modelled from the spec: `IRoomBuilder.setName` sets the name of the
working copy and returns the receiver reference when the name satisfies
the host naming rules; otherwise it raises InvalidName and leaves the
world (in particular the builder's name) unchanged. -/
def IRoomBuilder.setName (w : RoomWorld) (b : Nat) (name : String) :
    RoomWorld × Except HostError Nat :=
  if isValidRoomName name then
    (w.setB b { w.builders b with name := some name }, .ok b)
  else (w, .error .InvalidName)

/-- Modelled from the spec: `IRoomBuilder.setType` sets the room type of
the working copy and returns the receiver reference. -/
def IRoomBuilder.setType (w : RoomWorld) (b : Nat) (roomType : RoomType) :
    RoomWorld × Nat :=
  (w.setB b { w.builders b with type := some roomType }, b)

/-- Modelled from the spec: `IRoomBuilder.setDefault` sets the
default-membership flag of the working copy and returns the receiver
reference. -/
def IRoomBuilder.setDefault (w : RoomWorld) (b : Nat) (isDefault : Bool) :
    RoomWorld × Nat :=
  (w.setB b { w.builders b with isDefault := some isDefault }, b)

/-- Modelled from the spec: `IRoomBuilder.addUsername` appends one member
username to the working copy and returns the receiver reference. -/
def IRoomBuilder.addUsername (w : RoomWorld) (b : Nat) (username : String) :
    RoomWorld × Nat :=
  (w.setB b
    { w.builders b with
      usernames := (w.builders b).usernames ++ [username] }, b)

/-- Modelled from the spec: `IRoomBuilder.setUsers` replaces the entire
membership sequence of the working copy and returns the receiver
reference. -/
def IRoomBuilder.setUsers (w : RoomWorld) (b : Nat) (users : List String) :
    RoomWorld × Nat :=
  (w.setB b { w.builders b with usernames := users }, b)

/-- Modelled from the spec: `IRoomBuilder.getRoom` returns a detached
snapshot of the working copy built so far: a fresh room object, allocated
at a reference the builder never touches. -/
def IRoomBuilder.getRoom (w : RoomWorld) (b : Nat) : RoomWorld × Nat :=
  ({ w with
      roomObjs := hupdate w.roomObjs w.nextObj (w.builders b)
      nextObj := w.nextObj + 1 }, w.nextObj)

/-- Modelled from the spec: an external mutation of a room object a caller
received, performed outside the builder. -/
def mutateRoomObj (w : RoomWorld) (r : Nat) (room : IRoom) : RoomWorld :=
  { w with roomObjs := hupdate w.roomObjs r room }

/-- Modelled from the spec: `IModifyBuilder.modifyMessage` returns a
message builder pre-populated from the stored message identified by
`msgId`, with the updater field pre-set to `updater`; it fails with
NotFound (returning no builder) when `msgId` does not resolve.  The
builder is represented by the working copy it starts from. -/
def IModifyBuilder.modifyMessage (store : MessageStore) (msgId : String)
    (updater : IUser) : Except HostError IMessage :=
  match storeLookup store msgId with
  | none => .error .NotFound
  | some m => .ok { m with updater := some updater }

/-- Modelled from the spec: `IModifyBuilder.modifyRoom` returns a room
builder pre-populated from the stored room identified by `roomId`, with
the updater field pre-set to `updater`; it fails with NotFound (returning
no builder) when `roomId` does not resolve. -/
def IModifyBuilder.modifyRoom (store : RoomStore) (roomId : String)
    (updater : IUser) : Except HostError IRoom :=
  match storeLookup store roomId with
  | none => .error .NotFound
  | some r => .ok { r with updater := some updater }

/-- The operations declared by the `IBuilder` interface, in source order
(src/unnamed/part_000, the general builder accessor). -/
def IBuilderOps : List String :=
  ["buildMessage", "buildRoom", "modifyMessage", "modifyRoom",
   "finishMessage", "finishRoom"]

/-- The operations declared by the `INewBuilder` interface, in source
order (src/unnamed/part_000, the creation-only accessor). -/
def INewBuilderOps : List String :=
  ["buildMessage", "sendMessage", "buildRoom", "createRoom"]

/-- The operations declared by the `IModifyBuilder` interface, in source
order (src/unnamed/part_000, the modification-only accessor). -/
def IModifyBuilderOps : List String :=
  ["modifyMessage", "modifyRoom"]

/-- The operations declared by the `IMessageBuilder` interface, in source
order (src/unnamed/part_000). -/
def IMessageBuilderOps : List String :=
  ["setRoom", "setSender", "setText", "setEmojiAvatar", "setAvatarUrl",
   "setUsernameAlias", "addAttachment", "setAttachments",
   "replaceAttachment", "removeAttachment", "setUpdater", "getMessage"]

/-- The operations declared by the `IRoomBuilder` interface, in source
order (src/unnamed/part_000). -/
def IRoomBuilderOps : List String :=
  ["setCreator", "setName", "setType", "setDefault", "addUsername",
   "setUsers", "getRoom"]

/-- The environment-read accessor handed to hooks (`IRead`); of its
surface only the message store matters to the claims considered here. -/
structure IRead where
  messages : MessageStore

/-- The outbound-call accessor handed to hooks (`IHttp`); its surface is
not specified in this repository, so it is carried as an opaque token. -/
structure IHttp where
  httpToken : Unit

/-- The non-destructive message-modification accessor handed to the
enrichment transform (`IMessageExtend`); its surface is not specified in
this repository, so it is carried as an opaque token. -/
structure IMessageExtend where
  extendToken : Unit

/-- The pre-message-sent enrichment hook contract
(src/unnamed/part_001, `IPreMessageSentEnrich`): an optional gate
`checkPreMessageSentEnrich` taking the candidate message plus the read and
outbound accessors and returning a boolean, and a required transform
`executePreMessageSentEnrich` taking the candidate message plus accessors
and returning a (possibly modified) message value. -/
structure IPreMessageSentEnrich where
  checkPreMessageSentEnrich : Option (IMessage → IRead → IHttp → Bool) := none
  executePreMessageSentEnrich : IMessage → IRead → IMessageExtend → IHttp → IMessage

/-- Modelled from the spec: the host invokes the enrichment hook on the
message object at reference `r`: it runs the optional gate (a missing gate
allows the transform), and when the gate allows, the transform's result is
stored as a fresh object whose reference is returned, leaving the input
object in place (non-destructive); when the gate refuses, nothing runs and
the input reference is returned unchanged. -/
def invokePreMessageSentEnrich (handler : IPreMessageSentEnrich)
    (w : MsgWorld) (r : Nat) (read : IRead) (extend : IMessageExtend)
    (http : IHttp) : MsgWorld × Nat :=
  let msg := w.msgObjs r
  let gateOk :=
    match handler.checkPreMessageSentEnrich with
    | none => true
    | some gate => gate msg read http
  if gateOk then
    ({ w with
        msgObjs := hupdate w.msgObjs w.nextObj
          (handler.executePreMessageSentEnrich msg read extend http)
        nextObj := w.nextObj + 1 }, w.nextObj)
  else (w, r)

/-- A sample attachment for concrete instantiations. -/
def attA : IMessageAttachment := { payload := "a1" }

/-- A second sample attachment for concrete instantiations. -/
def attB : IMessageAttachment := { payload := "a2" }

/-- A sample message-builder world: every builder working copy carries two
attachments. -/
def sampleMsgWorld : MsgWorld :=
  { builders := fun _ => { attachments := [attA, attB] }
    msgObjs := fun _ => {}
    nextObj := 0 }

/-- A sample room-builder world with empty working copies. -/
def sampleRoomWorld : RoomWorld :=
  { builders := fun _ => {}
    roomObjs := fun _ => {}
    nextObj := 0 }

/-- A sample store holding one room, for the modify-accessor witness. -/
def sampleRoomStore : RoomStore :=
  [("room-1", { id := some "room-1", name := some "general" })]

/-- C2: for every position outside the current attachment bounds
`[0, n)`, `replaceAttachment` and `removeAttachment` fail with
IndexOutOfRange and leave the whole world — in particular the attachment
sequence and the rest of the builder state — unchanged; for every valid
position both succeed, returning the receiver. -/
theorem c2_attachment_position_bounds (w : MsgWorld) (b : Nat) (pos : Int)
    (att : IMessageAttachment) :
    (¬(0 ≤ pos ∧ pos < ((w.builders b).attachments.length : Int)) →
        IMessageBuilder.replaceAttachment w b pos att
            = (w, .error .IndexOutOfRange)
          ∧ IMessageBuilder.removeAttachment w b pos
            = (w, .error .IndexOutOfRange))
    ∧ ((0 ≤ pos ∧ pos < ((w.builders b).attachments.length : Int)) →
        (IMessageBuilder.replaceAttachment w b pos att).2 = .ok b
          ∧ (IMessageBuilder.removeAttachment w b pos).2 = .ok b) := by
  refine ⟨fun h => ⟨?_, ?_⟩, fun h => ⟨?_, ?_⟩⟩
  · simp [IMessageBuilder.replaceAttachment, h]
  · simp [IMessageBuilder.removeAttachment, h]
  · simp [IMessageBuilder.replaceAttachment, h.1, h.2]
  · simp [IMessageBuilder.removeAttachment, h.1, h.2]

/-- Witness for C2 at a concrete world with two attachments: position 5 is
rejected with the world untouched, position 0 succeeds. -/
theorem c2_attachment_position_bounds_witness :
    IMessageBuilder.replaceAttachment sampleMsgWorld 0 5 attA
        = (sampleMsgWorld, .error .IndexOutOfRange)
      ∧ (IMessageBuilder.removeAttachment sampleMsgWorld 0 0).2 = .ok 0 :=
  ⟨((c2_attachment_position_bounds sampleMsgWorld 0 5 attA).1
      (by decide)).1,
   ((c2_attachment_position_bounds sampleMsgWorld 0 0 attA).2
      (by decide)).2⟩

/-- C3: for every id that does not resolve to a stored entity,
`modifyMessage` and `modifyRoom` fail with NotFound and return no
builder; for every resolving id they return a builder pre-populated from
the stored entity with the updater field already set. -/
theorem c3_modify_requires_existing_entity (msgs : MessageStore)
    (rooms : RoomStore) (entityId : String) (updater : IUser) :
    (storeLookup msgs entityId = none →
        IModifyBuilder.modifyMessage msgs entityId updater
          = .error .NotFound)
    ∧ (∀ m, storeLookup msgs entityId = some m →
        IModifyBuilder.modifyMessage msgs entityId updater
          = .ok { m with updater := some updater })
    ∧ (storeLookup rooms entityId = none →
        IModifyBuilder.modifyRoom rooms entityId updater
          = .error .NotFound)
    ∧ (∀ r, storeLookup rooms entityId = some r →
        IModifyBuilder.modifyRoom rooms entityId updater
          = .ok { r with updater := some updater }) := by
  refine ⟨fun h => ?_, fun m h => ?_, fun h => ?_, fun r h => ?_⟩ <;>
    simp [IModifyBuilder.modifyMessage, IModifyBuilder.modifyRoom, h]

/-- Witness for C3: an unresolved message id and an unresolved room id
both yield NotFound, and a resolving room id yields the stored room with
the updater pre-set. -/
theorem c3_modify_requires_existing_entity_witness :
    IModifyBuilder.modifyMessage sampleStore "msg-404" { id := "alice" }
        = .error .NotFound
      ∧ IModifyBuilder.modifyRoom sampleRoomStore "room-404" { id := "alice" }
        = .error .NotFound
      ∧ IModifyBuilder.modifyRoom sampleRoomStore "room-1" { id := "alice" }
        = .ok { id := some "room-1", name := some "general",
                updater := some { id := "alice" } } :=
  ⟨(c3_modify_requires_existing_entity sampleStore sampleRoomStore
      "msg-404" { id := "alice" }).1 (by decide),
   (c3_modify_requires_existing_entity sampleStore sampleRoomStore
      "room-404" { id := "alice" }).2.2.1 (by decide),
   (c3_modify_requires_existing_entity sampleStore sampleRoomStore
      "room-1" { id := "alice" }).2.2.2
      { id := some "room-1", name := some "general" } (by decide)⟩

/-- C4: every fluent setter of the message builder and of the room
builder returns the very reference it was called on (for the fallible
setters, whenever they succeed), so calls chain on one object. -/
theorem c4_fluent_setters_return_receiver (wm : MsgWorld) (wr : RoomWorld)
    (b : Nat) (room : IRoom) (user : IUser) (s : String)
    (att : IMessageAttachment) (atts : List IMessageAttachment) (pos : Int)
    (ty : RoomType) (flag : Bool) (users : List String) :
    (IMessageBuilder.setRoom wm b room).2 = b
    ∧ (IMessageBuilder.setSender wm b user).2 = b
    ∧ (IMessageBuilder.setText wm b s).2 = b
    ∧ (IMessageBuilder.setEmojiAvatar wm b s).2 = b
    ∧ (IMessageBuilder.setAvatarUrl wm b s).2 = b
    ∧ (IMessageBuilder.setUsernameAlias wm b s).2 = b
    ∧ (IMessageBuilder.addAttachment wm b att).2 = b
    ∧ (IMessageBuilder.setAttachments wm b atts).2 = b
    ∧ ((0 ≤ pos ∧ pos < ((wm.builders b).attachments.length : Int)) →
        (IMessageBuilder.replaceAttachment wm b pos att).2 = .ok b)
    ∧ ((0 ≤ pos ∧ pos < ((wm.builders b).attachments.length : Int)) →
        (IMessageBuilder.removeAttachment wm b pos).2 = .ok b)
    ∧ (IMessageBuilder.setUpdater wm b user).2 = b
    ∧ (IRoomBuilder.setCreator wr b user).2 = b
    ∧ (isValidRoomName s = true →
        (IRoomBuilder.setName wr b s).2 = .ok b)
    ∧ (IRoomBuilder.setType wr b ty).2 = b
    ∧ (IRoomBuilder.setDefault wr b flag).2 = b
    ∧ (IRoomBuilder.addUsername wr b s).2 = b
    ∧ (IRoomBuilder.setUsers wr b users).2 = b := by
  refine ⟨rfl, rfl, rfl, rfl, rfl, rfl, rfl, rfl, fun h => ?_, fun h => ?_,
    rfl, rfl, fun h => ?_, rfl, rfl, rfl, rfl⟩
  · simp [IMessageBuilder.replaceAttachment, h.1, h.2]
  · simp [IMessageBuilder.removeAttachment, h.1, h.2]
  · simp [IRoomBuilder.setName, h]

/-- Witness for C4 at a concrete world: `setText`, a valid
`replaceAttachment` and a valid `setName` all return the receiver. -/
theorem c4_fluent_setters_return_receiver_witness :
    (IMessageBuilder.setText sampleMsgWorld 0 "general").2 = 0
      ∧ (IMessageBuilder.replaceAttachment sampleMsgWorld 0 0 attA).2 = .ok 0
      ∧ (IRoomBuilder.setName sampleRoomWorld 0 "general").2 = .ok 0 := by
  obtain ⟨h1, h2, h3, h4, h5, h6, h7, h8, h9, h10, h11, h12, h13, h14,
    h15, h16, h17⟩ :=
    c4_fluent_setters_return_receiver sampleMsgWorld sampleRoomWorld 0
      {} { id := "alice" } "general" attA [] 0 RoomType.channel true []
  exact ⟨h3, h9 (by decide), h13 (by decide)⟩

/-- C5: `getMessage` / `getRoom` hand out a detached snapshot of the state
built so far; externally mutating the returned object leaves every builder
working copy untouched, and a later `getMessage` / `getRoom` still yields
exactly the builder's own state. -/
theorem c5_snapshot_isolation (wm : MsgWorld) (wr : RoomWorld) (b : Nat)
    (m : IMessage) (room : IRoom) :
    ((IMessageBuilder.getMessage wm b).1.msgObjs
        (IMessageBuilder.getMessage wm b).2 = wm.builders b)
    ∧ ((mutateMessageObj (IMessageBuilder.getMessage wm b).1
          (IMessageBuilder.getMessage wm b).2 m).builders = wm.builders)
    ∧ ((IMessageBuilder.getMessage
          (mutateMessageObj (IMessageBuilder.getMessage wm b).1
            (IMessageBuilder.getMessage wm b).2 m) b).1.msgObjs
        (IMessageBuilder.getMessage
          (mutateMessageObj (IMessageBuilder.getMessage wm b).1
            (IMessageBuilder.getMessage wm b).2 m) b).2 = wm.builders b)
    ∧ ((IRoomBuilder.getRoom wr b).1.roomObjs
        (IRoomBuilder.getRoom wr b).2 = wr.builders b)
    ∧ ((mutateRoomObj (IRoomBuilder.getRoom wr b).1
          (IRoomBuilder.getRoom wr b).2 room).builders = wr.builders)
    ∧ ((IRoomBuilder.getRoom
          (mutateRoomObj (IRoomBuilder.getRoom wr b).1
            (IRoomBuilder.getRoom wr b).2 room) b).1.roomObjs
        (IRoomBuilder.getRoom
          (mutateRoomObj (IRoomBuilder.getRoom wr b).1
            (IRoomBuilder.getRoom wr b).2 room) b).2 = wr.builders b) := by
  refine ⟨?_, rfl, ?_, ?_, rfl, ?_⟩ <;>
    simp [IMessageBuilder.getMessage, IRoomBuilder.getRoom,
      mutateMessageObj, mutateRoomObj, hupdate]

/-- C6: `setAttachments` replaces the entire attachment sequence, so the
snapshot returned by `getMessage` carries exactly the given list
regardless of the prior state; `addAttachment` appends to the end of the
current sequence, leaving every existing entry in place. -/
theorem c6_attachments_replace_and_append (w : MsgWorld) (b : Nat)
    (atts : List IMessageAttachment) (att : IMessageAttachment) :
    (((IMessageBuilder.setAttachments w b atts).1.builders b).attachments
        = atts)
    ∧ (((IMessageBuilder.getMessage
          (IMessageBuilder.setAttachments w b atts).1 b).1.msgObjs
        (IMessageBuilder.getMessage
          (IMessageBuilder.setAttachments w b atts).1 b).2).attachments
        = atts)
    ∧ (((IMessageBuilder.addAttachment w b att).1.builders b).attachments
        = (w.builders b).attachments ++ [att]) := by
  refine ⟨?_, ?_, ?_⟩ <;>
    simp [IMessageBuilder.setAttachments, IMessageBuilder.addAttachment,
      IMessageBuilder.getMessage, MsgWorld.setB, hupdate]

/-- C7: `setName` with a name violating the host naming rules (the empty
string in particular) fails with InvalidName and leaves the world — in
particular the builder's name — unchanged from its prior value; with a
valid name it succeeds and records the name. -/
theorem c7_setName_validates_room_name (w : RoomWorld) (b : Nat)
    (name : String) :
    (isValidRoomName name = false →
        IRoomBuilder.setName w b name = (w, .error .InvalidName))
    ∧ (isValidRoomName name = true →
        (IRoomBuilder.setName w b name).2 = .ok b
          ∧ ((IRoomBuilder.setName w b name).1.builders b).name
            = some name) := by
  refine ⟨fun h => ?_, fun h => ?_⟩ <;>
    simp [IRoomBuilder.setName, RoomWorld.setB, hupdate, h]

/-- Witness for C7: the empty name is rejected with the world untouched;
the name `"general"` is accepted. -/
theorem c7_setName_validates_room_name_witness :
    IRoomBuilder.setName sampleRoomWorld 0 ""
        = (sampleRoomWorld, .error .InvalidName)
      ∧ (IRoomBuilder.setName sampleRoomWorld 0 "general").2 = .ok 0 :=
  ⟨(c7_setName_validates_room_name sampleRoomWorld 0 "").1 (by decide),
   ((c7_setName_validates_room_name sampleRoomWorld 0 "general").2
      (by decide)).1⟩

/-- C8 counterexample: the `IRoomBuilder` interface declared in
src/unnamed/part_000 has no `setUpdater` operation — the claim that the
room builder contract includes a `setUpdater` fluent setter is false. -/
theorem c8_counterexample_room_builder_lacks_setUpdater :
    ¬ ("setUpdater" ∈ IRoomBuilderOps) := by decide

/-- C8 amended: the room builder contract does not include `setUpdater`;
its operations are exactly `setCreator`, `setName`, `setType`,
`setDefault`, `addUsername`, `setUsers` and `getRoom`.  `setUpdater`
exists on the message builder only; a modify-mode room builder receives
its updater through the `updater` argument of `modifyRoom` instead. -/
theorem c8_room_builder_ops_amended :
    IRoomBuilderOps
        = ["setCreator", "setName", "setType", "setDefault", "addUsername",
           "setUsers", "getRoom"]
      ∧ "setUpdater" ∉ IRoomBuilderOps
      ∧ "setUpdater" ∈ IMessageBuilderOps
      ∧ "modifyRoom" ∈ IModifyBuilderOps := by decide

/-- C9: the enrichment hook contract is an optional gate
`checkPreMessageSentEnrich` (candidate message plus read and outbound
accessors, returning a boolean) deciding whether the required transform
`executePreMessageSentEnrich` runs, and the transform is non-destructive:
invoking the hook never changes the input message object; when the gate
allows (or is absent) the result object carries the transform's value,
and when the gate refuses nothing happens at all. -/
theorem c9_enrichment_hook_gate_and_transform
    (handler : IPreMessageSentEnrich) (w : MsgWorld) (r : Nat)
    (read : IRead) (extend : IMessageExtend) (http : IHttp)
    (hr : r < w.nextObj) :
    ((invokePreMessageSentEnrich handler w r read extend http).1.msgObjs r
        = w.msgObjs r)
    ∧ (handler.checkPreMessageSentEnrich = none →
        (invokePreMessageSentEnrich handler w r read extend http).1.msgObjs
            (invokePreMessageSentEnrich handler w r read extend http).2
          = handler.executePreMessageSentEnrich (w.msgObjs r) read extend
              http)
    ∧ (∀ gate, handler.checkPreMessageSentEnrich = some gate →
        (gate (w.msgObjs r) read http = true →
            (invokePreMessageSentEnrich handler w r read extend
                  http).1.msgObjs
                (invokePreMessageSentEnrich handler w r read extend http).2
              = handler.executePreMessageSentEnrich (w.msgObjs r) read
                  extend http)
          ∧ (gate (w.msgObjs r) read http = false →
              invokePreMessageSentEnrich handler w r read extend http
                = (w, r))) := by
  have hne : r ≠ w.nextObj := Nat.ne_of_lt hr
  refine ⟨?_, fun hnone => ?_,
    fun gate hgate => ⟨fun htrue => ?_, fun hfalse => ?_⟩⟩
  · cases hcheck : handler.checkPreMessageSentEnrich with
    | none => simp [invokePreMessageSentEnrich, hcheck, hupdate, hne]
    | some gate =>
        cases hgb : gate (w.msgObjs r) read http <;>
          simp [invokePreMessageSentEnrich, hcheck, hgb, hupdate, hne]
  · simp [invokePreMessageSentEnrich, hnone, hupdate]
  · simp [invokePreMessageSentEnrich, hgate, htrue, hupdate]
  · simp [invokePreMessageSentEnrich, hgate, hfalse]

/-- A sample hook whose gate is absent and whose transform sets the
text. -/
def sampleHandler : IPreMessageSentEnrich :=
  { checkPreMessageSentEnrich := none
    executePreMessageSentEnrich :=
      fun m _ _ _ => { m with text := some "enriched" } }

/-- A sample read accessor for the hook witness. -/
def sampleRead : IRead := { messages := sampleStore }

/-- A sample message-extend accessor for the hook witness. -/
def sampleExtend : IMessageExtend := { extendToken := () }

/-- A sample outbound accessor for the hook witness. -/
def sampleHttp : IHttp := { httpToken := () }

/-- A sample world for the hook witness: one live message object at
reference 0. -/
def sampleHookWorld : MsgWorld :=
  { builders := fun _ => {}
    msgObjs := fun _ => { text := some "hi" }
    nextObj := 1 }

/-- Witness for C9: invoking the sample hook leaves the input object
unchanged and the result object carries the transform's value. -/
theorem c9_enrichment_hook_gate_and_transform_witness :
    ((invokePreMessageSentEnrich sampleHandler sampleHookWorld 0 sampleRead
        sampleExtend sampleHttp).1.msgObjs 0 = sampleHookWorld.msgObjs 0)
      ∧ ((invokePreMessageSentEnrich sampleHandler sampleHookWorld 0
            sampleRead sampleExtend sampleHttp).1.msgObjs
          (invokePreMessageSentEnrich sampleHandler sampleHookWorld 0
            sampleRead sampleExtend sampleHttp).2
          = sampleHandler.executePreMessageSentEnrich
              (sampleHookWorld.msgObjs 0) sampleRead sampleExtend
              sampleHttp) := by
  have h := c9_enrichment_hook_gate_and_transform sampleHandler
    sampleHookWorld 0 sampleRead sampleExtend sampleHttp (by decide)
  exact ⟨h.1, h.2.1 rfl⟩

/-- C10: the modification-only accessor `IModifyBuilder` exposes exactly
`modifyMessage` and `modifyRoom` and none of the terminal commit
operations; the commit operations live on the general accessor
(`finishMessage` / `finishRoom` on `IBuilder`) and the creation-only
accessor (`sendMessage` / `createRoom` on `INewBuilder`). -/
theorem c10_modify_accessor_cannot_commit :
    IModifyBuilderOps = ["modifyMessage", "modifyRoom"]
      ∧ "finishMessage" ∉ IModifyBuilderOps
      ∧ "finishRoom" ∉ IModifyBuilderOps
      ∧ "sendMessage" ∉ IModifyBuilderOps
      ∧ "createRoom" ∉ IModifyBuilderOps
      ∧ "finishMessage" ∈ IBuilderOps
      ∧ "finishRoom" ∈ IBuilderOps
      ∧ "sendMessage" ∈ INewBuilderOps
      ∧ "createRoom" ∈ INewBuilderOps := by decide
